import Mathlib

/-!
Verification of `src/example_dag.py`: a declarative Airflow DAG of four
tasks.  The Python module is embedded shallowly: the configuration
records (`default_args`, the `DAG(...)` call, the four operator calls)
become Lean structure values, the two task-dependency declarations
(`>>`) become an explicit edge list, and the two Python callables become
straight-line programs in a small statement language interpreted over an
environment that supplies the ambient system strings
(`sys.version`, `platform.platform()`, `platform.processor()`).
-/

namespace ExampleDag

/-- Python `datetime(year, month, day)` with the omitted time fields
defaulting to zero, as in `datetime(2024, 1, 1)`. -/
structure PyDateTime where
  year : Nat
  month : Nat
  day : Nat
  hour : Nat
  minute : Nat
  second : Nat
deriving DecidableEq, Repr

/-- `datetime(y, m, d)`. -/
def datetime (y m d : Nat) : PyDateTime := ⟨y, m, d, 0, 0, 0⟩

/-- Python `timedelta`, reduced to its total length in seconds. -/
structure PyTimeDelta where
  totalSeconds : Nat
deriving DecidableEq, Repr

/-- `timedelta(minutes=m)`. -/
def timedeltaOfMinutes (m : Nat) : PyTimeDelta := ⟨m * 60⟩

/-- The keys of the `default_args` dictionary (lines 12-20). -/
structure DefaultArgs where
  owner : String
  depends_on_past : Bool
  start_date : PyDateTime
  email_on_failure : Bool
  email_on_retry : Bool
  retries : Nat
  retry_delay : PyTimeDelta
deriving DecidableEq, Repr

/-- `default_args` as written on lines 12-20 of `example_dag.py`. -/
def default_args : DefaultArgs :=
  { owner := "mcheriyath"
    depends_on_past := false
    start_date := datetime 2024 1 1
    email_on_failure := false
    email_on_retry := false
    retries := 1
    retry_delay := timedeltaOfMinutes 5 }

/-- The arguments of the `DAG(...)` constructor call (lines 23-31). -/
structure DagConfig where
  dag_id : String
  default_args : DefaultArgs
  description : String
  schedule_interval : String
  start_date : PyDateTime
  catchup : Bool
  tags : List String
deriving DecidableEq, Repr

/-- The `dag = DAG(...)` declaration on lines 23-31. -/
def dag : DagConfig :=
  { dag_id := "example_airflow_test"
    default_args := default_args
    description := "A simple example DAG to test Airflow 3.1.0"
    schedule_interval := "@daily"
    start_date := datetime 2024 1 1
    catchup := false
    tags := ["example", "test", "airflow-3.1.0"] }

/-- The ambient system state read by `print_system_info`:
`sys.version`, `platform.platform()` and `platform.processor()`. -/
structure Env where
  sysVersion : String
  platformPlatform : String
  platformProcessor : String

/-- String expressions appearing in the two callables: string literals
and the three system probes used inside the f-strings. -/
inductive Expr where
  | lit : String → Expr
  | sysVersion : Expr
  | platformPlatform : Expr
  | platformProcessor : Expr

/-- Evaluate an expression against the ambient system state. -/
def Expr.eval (env : Env) : Expr → String
  | .lit s => s
  | .sysVersion => env.sysVersion
  | .platformPlatform => env.platformPlatform
  | .platformProcessor => env.platformProcessor

/-- Statements of the embedded fragment of Python.  The two callables
only ever print (an f-string is a list of parts to concatenate); the
`raiseStmt` form exists so that "no error path is reachable" is a fact
about the bodies rather than about the language. -/
inductive Stmt where
  | print : List Expr → Stmt
  | raiseStmt : String → Stmt

/-- Whether a statement is a print statement. -/
def Stmt.isPrint : Stmt → Bool
  | .print _ => true
  | .raiseStmt _ => false

/-- Run a statement list in order: each print emits one line, a raise
aborts with an error. -/
def execStmts (env : Env) : List Stmt → Except String (List String)
  | [] => Except.ok []
  | .print parts :: rest =>
      (execStmts env rest).map
        (fun out => String.join (parts.map (Expr.eval env)) :: out)
  | .raiseStmt msg :: _ => Except.error msg

/-- A Python callable of the module: a straight-line body followed by a
`return` of a string expression. -/
structure PyFun where
  body : List Stmt
  ret : Expr

/-- Invoke a callable: run the body, then pair the printed lines with
the value of the return expression. -/
def PyFun.run (f : PyFun) (env : Env) : Except String (List String × String) :=
  (execStmts env f.body).map (fun lines => (lines, f.ret.eval env))

/-- `print_hello` (lines 33-37): two prints, then `return "Success!"`. -/
def print_hello : PyFun :=
  { body :=
      [ Stmt.print [Expr.lit "🚁 Hello from Airflow 3.1.0!"]
      , Stmt.print [Expr.lit "🎯 DAG is running successfully on Minikube!"] ]
    ret := Expr.lit "Success!" }

/-- `print_system_info` (lines 39-48): four prints (three f-strings over
the system probes, one literal), then `return "System info collected!"`. -/
def print_system_info : PyFun :=
  { body :=
      [ Stmt.print [Expr.lit "🐍 Python version: ", Expr.sysVersion]
      , Stmt.print [Expr.lit "🖥️  Platform: ", Expr.platformPlatform]
      , Stmt.print [Expr.lit "⚙️  Processor: ", Expr.platformProcessor]
      , Stmt.print [Expr.lit "✨ Airflow 3.1.0 test completed successfully!"] ]
    ret := Expr.lit "System info collected!" }

/-- The projection of an invocation result onto the returned string
(none when the invocation raised). -/
def returnedValue (r : Except String (List String × String)) : Option String :=
  r.toOption.map Prod.snd

/-- The four task variables declared in the module. -/
inductive Task where
  | hello_task : Task
  | system_info_task : Task
  | bash_task : Task
  | version_check_task : Task
deriving DecidableEq, Repr, Fintype

/-- A task action: a Python callable or a bash command string. -/
inductive TaskAction where
  | python : PyFun → TaskAction
  | bash : String → TaskAction

/-- The configuration carried by one operator call: the `task_id`, the
action, and the DAG the task is registered against. -/
structure TaskDescriptor where
  task_id : String
  action : TaskAction
  dag : DagConfig

/-- `hello_task = PythonOperator(...)` (lines 51-55). -/
def hello_task : TaskDescriptor :=
  { task_id := "print_hello", action := TaskAction.python print_hello, dag := dag }

/-- `system_info_task = PythonOperator(...)` (lines 58-62). -/
def system_info_task : TaskDescriptor :=
  { task_id := "print_system_info", action := TaskAction.python print_system_info, dag := dag }

/-- `bash_task = BashOperator(...)` (lines 65-69). -/
def bash_task : TaskDescriptor :=
  { task_id := "run_bash_command"
    action := TaskAction.bash "echo \"🎉 Bash task completed successfully!\" && date"
    dag := dag }

/-- `version_check_task = BashOperator(...)` (lines 72-76). -/
def version_check_task : TaskDescriptor :=
  { task_id := "check_airflow_version"
    action := TaskAction.bash "airflow version"
    dag := dag }

/-- The descriptor attached to each task variable. -/
def taskOf : Task → TaskDescriptor
  | .hello_task => hello_task
  | .system_info_task => system_info_task
  | .bash_task => bash_task
  | .version_check_task => version_check_task

/-- The `task_id` string of a task. -/
def taskIdOf (t : Task) : String := (taskOf t).task_id

/-- The four tasks, in order of declaration. -/
def allTasks : List Task :=
  [Task.hello_task, Task.system_info_task, Task.bash_task, Task.version_check_task]

/-- `src >> [d1, ..., dn]`: an edge from `src` to each member. -/
def downstreamOfTask (src : Task) (dsts : List Task) : List (Task × Task) :=
  dsts.map (fun d => (src, d))

/-- `[s1, ..., sn] >> dst`: an edge from each member to `dst`. -/
def downstreamOfList (srcs : List Task) (dst : Task) : List (Task × Task) :=
  srcs.map (fun s => (s, dst))

/-- The edges declared on lines 79-80:
`hello_task >> [system_info_task, bash_task]` and
`[system_info_task, bash_task] >> version_check_task`. -/
def declaredEdges : List (Task × Task) :=
  downstreamOfTask Task.hello_task [Task.system_info_task, Task.bash_task] ++
  downstreamOfList [Task.system_info_task, Task.bash_task] Task.version_check_task

/-- The declared direct dependency relation: `dep a b` holds when the
module declares `b` directly downstream of `a`. -/
def dep (a b : Task) : Prop := (a, b) ∈ declaredEdges

instance : DecidableRel dep := fun a b =>
  inferInstanceAs (Decidable ((a, b) ∈ declaredEdges))

/-- A task with no declared direct predecessor. -/
def noPred (t : Task) : Prop := ∀ s, ¬ dep s t

/-- A task with no declared direct successor. -/
def noSucc (t : Task) : Prop := ∀ s, ¬ dep t s

instance : DecidablePred noPred := fun t =>
  inferInstanceAs (Decidable (∀ s, ¬ dep s t))

instance : DecidablePred noSucc := fun t =>
  inferInstanceAs (Decidable (∀ s, ¬ dep t s))

/-- A maximal chain of the declared dependency relation: a nonempty
list whose consecutive members are related by `dep`, starting at a task
with no predecessor and ending at a task with no successor. -/
def IsMaximalChain (l : List Task) : Prop :=
  l ≠ [] ∧ List.Chain' dep l ∧
  (∀ h ∈ l.head?, noPred h) ∧ (∀ t ∈ l.getLast?, noSucc t)

/-- Topological rank of each task in the declared graph. -/
def rank : Task → Nat
  | .hello_task => 0
  | .system_info_task => 1
  | .bash_task => 1
  | .version_check_task => 2

/-- Every declared edge strictly increases the rank. -/
lemma dep_rank_lt : ∀ a b : Task, dep a b → rank a < rank b := by decide

/-- Rank increases strictly along the transitive closure of `dep`. -/
lemma transGen_rank_lt (a b : Task) (h : Relation.TransGen dep a b) :
    rank a < rank b := by
  induction h with
  | single hd => exact dep_rank_lt _ _ hd
  | tail _ hd ih => exact lt_trans ih (dep_rank_lt _ _ hd)

/-- C1: when invoked directly (in any environment), `print_hello`
returns the literal string `"Success!"` and `print_system_info` returns
the literal string `"System info collected!"`. -/
theorem print_functions_return_literals (env : Env) :
    (∃ lines, PyFun.run print_hello env = Except.ok (lines, "Success!")) ∧
    (∃ lines, PyFun.run print_system_info env =
        Except.ok (lines, "System info collected!")) :=
  ⟨⟨_, rfl⟩, ⟨_, rfl⟩⟩

/-- C2: the declared direct dependency relation is exactly
`hello_task >> system_info_task`, `hello_task >> bash_task`,
`system_info_task >> version_check_task` and
`bash_task >> version_check_task`, and nothing else. -/
theorem dep_relation_exact :
    ∀ a b : Task, dep a b ↔
      ((a = Task.hello_task ∧ b = Task.system_info_task) ∨
       (a = Task.hello_task ∧ b = Task.bash_task) ∨
       (a = Task.system_info_task ∧ b = Task.version_check_task) ∨
       (a = Task.bash_task ∧ b = Task.version_check_task)) := by
  decide

/-- C3: the declared graph has exactly four task identifiers, namely
`print_hello`, `print_system_info`, `run_bash_command` and
`check_airflow_version`, and they are pairwise distinct. -/
theorem task_ids_exact_and_distinct :
    allTasks.map taskIdOf =
      ["print_hello", "print_system_info", "run_bash_command",
       "check_airflow_version"] ∧
    (allTasks.map taskIdOf).Nodup ∧ allTasks.length = 4 := by
  refine ⟨rfl, by decide, rfl⟩

/-- C4: `default_args` sets exactly the stated failure handling: retry
count 1, a retry delay of 5 minutes (300 seconds), and both email
flags false. -/
theorem default_args_failure_handling :
    default_args.retries = 1 ∧
    default_args.retry_delay = timedeltaOfMinutes 5 ∧
    default_args.retry_delay.totalSeconds = 5 * 60 ∧
    default_args.email_on_failure = false ∧
    default_args.email_on_retry = false :=
  ⟨rfl, rfl, rfl, rfl, rfl⟩

/-- C5: the declared dependency relation is acyclic: its transitive
closure relates no task to itself. -/
theorem dep_acyclic : ∀ a : Task, ¬ Relation.TransGen dep a a :=
  fun a h => lt_irrefl (rank a) (transGen_rank_lt a a h)

/-- Witness for C5 at a concrete cycle candidate: there is no
transitive dependency of `hello_task` on itself. -/
theorem dep_acyclic_witness :
    ¬ Relation.TransGen dep Task.hello_task Task.hello_task :=
  dep_acyclic Task.hello_task

/-- C6: both callables are straight-line sequences of print statements
and, in every environment, return normally with exactly one output line
per print statement. -/
theorem callables_straight_line (env : Env) :
    print_hello.body.all Stmt.isPrint = true ∧
    print_system_info.body.all Stmt.isPrint = true ∧
    (∃ out, PyFun.run print_hello env = Except.ok out ∧
        out.1.length = print_hello.body.length) ∧
    (∃ out, PyFun.run print_system_info env = Except.ok out ∧
        out.1.length = print_system_info.body.length) :=
  ⟨rfl, rfl, ⟨_, rfl, rfl⟩, ⟨_, rfl, rfl⟩⟩

/-- C7: the returned string of each callable does not depend on the
environment: any two invocations return equal strings. -/
theorem returned_values_env_independent (e1 e2 : Env) :
    returnedValue (PyFun.run print_hello e1) =
      returnedValue (PyFun.run print_hello e2) ∧
    returnedValue (PyFun.run print_system_info e1) =
      returnedValue (PyFun.run print_system_info e2) :=
  ⟨rfl, rfl⟩

/-- C8: the two shell tasks carry fixed command strings:
`run_bash_command` carries `echo "🎉 Bash task completed successfully!" && date`
and `check_airflow_version` carries `airflow version`. -/
theorem bash_commands_fixed :
    bash_task.task_id = "run_bash_command" ∧
    bash_task.action =
      TaskAction.bash "echo \"🎉 Bash task completed successfully!\" && date" ∧
    version_check_task.task_id = "check_airflow_version" ∧
    version_check_task.action = TaskAction.bash "airflow version" :=
  ⟨rfl, rfl, rfl, rfl⟩

/-- The only task with no predecessor is `hello_task`. -/
lemma noPred_iff : ∀ t : Task, noPred t ↔ t = Task.hello_task := by decide

/-- The only task with no successor is `version_check_task`. -/
lemma noSucc_iff : ∀ t : Task, noSucc t ↔ t = Task.version_check_task := by decide

/-- The direct successors of `hello_task`. -/
lemma dep_of_hello :
    ∀ b : Task, dep Task.hello_task b →
      b = Task.system_info_task ∨ b = Task.bash_task := by decide

/-- The direct successors of the two middle tasks. -/
lemma dep_of_mid :
    ∀ b c : Task, (b = Task.system_info_task ∨ b = Task.bash_task) →
      dep b c → c = Task.version_check_task := by decide

/-- `version_check_task` has no direct successor. -/
lemma no_dep_of_version : ∀ d : Task, ¬ dep Task.version_check_task d := by
  decide

/-- C9: `hello_task` is the unique task with no predecessor,
`version_check_task` the unique task with no successor, and the maximal
chains of the declared relation are exactly
`hello_task, system_info_task, version_check_task` and
`hello_task, bash_task, version_check_task`. -/
theorem maximal_chains_exact :
    (∀ t : Task, noPred t ↔ t = Task.hello_task) ∧
    (∀ t : Task, noSucc t ↔ t = Task.version_check_task) ∧
    (∀ l : List Task, IsMaximalChain l ↔
      (l = [Task.hello_task, Task.system_info_task, Task.version_check_task] ∨
       l = [Task.hello_task, Task.bash_task, Task.version_check_task])) := by
  refine ⟨noPred_iff, noSucc_iff, ?_⟩
  intro l
  constructor
  · rintro ⟨hne, hchain, hhead, hlast⟩
    match l, hne with
    | [a], _ =>
        have ha : a = Task.hello_task := (noPred_iff a).mp (hhead a rfl)
        have hs : a = Task.version_check_task := (noSucc_iff a).mp (hlast a rfl)
        simp [ha] at hs
    | a :: b :: t, _ =>
        have ha : a = Task.hello_task := (noPred_iff a).mp (hhead a rfl)
        rw [List.chain'_cons] at hchain
        have hb := dep_of_hello b (ha ▸ hchain.1)
        match t with
        | [] =>
            have hs : b = Task.version_check_task :=
              (noSucc_iff b).mp (hlast b rfl)
            rcases hb with hb | hb <;> simp [hb] at hs
        | c :: t2 =>
            rw [List.chain'_cons] at hchain
            have hc : c = Task.version_check_task :=
              dep_of_mid b c hb hchain.2.1
            match t2 with
            | [] =>
                subst ha; subst hc
                rcases hb with hb | hb <;> subst hb
                · exact Or.inl rfl
                · exact Or.inr rfl
            | d :: t3 =>
                rw [List.chain'_cons] at hchain
                exact absurd (hc ▸ hchain.2.2.1) (no_dep_of_version d)
  · rintro (rfl | rfl) <;>
      exact ⟨by decide,
        List.chain'_cons.mpr ⟨by decide,
          List.chain'_cons.mpr ⟨by decide, List.chain'_singleton _⟩⟩,
        by decide, by decide⟩

/-- C10: the start timestamp inside `default_args` equals the
`start_date` passed directly to the `DAG` constructor, and both are
2024-01-01T00:00:00. -/
theorem start_dates_agree :
    dag.default_args.start_date = dag.start_date ∧
    dag.start_date = datetime 2024 1 1 :=
  ⟨rfl, rfl⟩

end ExampleDag
